import Mathlib

/-!
Shallow embedding of `streamlit_app.py`, an Indonesian-language health-insurance
RAG chatbot.  Pure logic (search-filter assembly, prompt templating, date-warning
formatting, citation-table formatting) is translated into executable Lean
definitions; the external collaborators (Cortex search service, LLM completion
endpoint, PDF parser) are modelled as oracles recorded in an environment record,
and Streamlit's `st.error` / `st.stop` as an `Except` diagnostic channel.
-/

namespace KYHP

/-! ### String containment -/

/-- Boolean test that `pat` is a prefix of `s` (character lists). -/
def isPrefB : List Char → List Char → Bool
  | [], _ => true
  | _ :: _, [] => false
  | a :: as, b :: bs => a == b && isPrefB as bs

/-- Boolean substring test on character lists. -/
def subStr : List Char → List Char → Bool
  | pat, [] => pat.isEmpty
  | pat, c :: rest => isPrefB pat (c :: rest) || subStr pat rest

/-- `Contains s pat` holds when `pat` occurs as a contiguous substring of `s`. -/
def Contains (s pat : String) : Prop := subStr pat.data s.data = true

instance decContains (s pat : String) : Decidable (Contains s pat) :=
  inferInstanceAs (Decidable (subStr pat.data s.data = true))

/-! ### Dates

The Python code manipulates `datetime.date` values: `days_ago` is computed with
`(today - upload_date_only).days` and the upload date is rendered with
`strftime('%Y-%m-%d')`.  We model a date by its Gregorian components and
re-implement CPython's `date.toordinal` (proleptic Gregorian day number). -/

structure Date where
  year : Nat
  month : Nat
  day : Nat
  deriving DecidableEq, Repr

/-- CPython `calendar.isleap`. -/
def is_leap (y : Nat) : Bool := y % 4 == 0 && (y % 100 != 0 || y % 400 == 0)

/-- Cumulative days before the given month in a non-leap year
(CPython `_DAYS_BEFORE_MONTH`). -/
def days_before_month_tbl (m : Nat) : Nat :=
  match m with
  | 1 => 0 | 2 => 31 | 3 => 59 | 4 => 90 | 5 => 120 | 6 => 151
  | 7 => 181 | 8 => 212 | 9 => 243 | 10 => 273 | 11 => 304 | 12 => 334
  | _ => 0

/-- CPython `date._days_before_month`. -/
def days_before_month (y m : Nat) : Nat :=
  days_before_month_tbl m + (if 2 < m && is_leap y then 1 else 0)

/-- CPython `date.toordinal`: day 1 is January 1 of year 1. -/
def toordinal (dt : Date) : Nat :=
  365 * (dt.year - 1) + (dt.year - 1) / 4 - (dt.year - 1) / 100 +
    (dt.year - 1) / 400 + days_before_month dt.year dt.month + dt.day

/-- Zero-pad a numeral to two digits, as `%m` / `%d` do. -/
def pad2 (n : Nat) : String := if n < 10 then "0" ++ toString n else toString n

/-- Zero-pad a year to four digits, as CPython's `%Y` does. -/
def pad4 (n : Nat) : String :=
  if n < 10 then "000" ++ toString n
  else if n < 100 then "00" ++ toString n
  else if n < 1000 then "0" ++ toString n
  else toString n

/-- `strftime('%Y-%m-%d')`. -/
def dateStr (dt : Date) : String :=
  pad4 dt.year ++ "-" ++ pad2 dt.month ++ "-" ++ pad2 dt.day

/-! ### `format_date_warning` -/

/-- Python truthiness of an optional string (`None` and `""` are falsy). -/
def strTruthy : Option String → Bool
  | none => false
  | some s => !s.isEmpty

def warning_header : String := "###### Informasi Polis (Policy Info)\n"

/-- Embedding of `format_date_warning(policy_start_date, upload_date)`.
`today` stands for `datetime.now().date()`; the upload date is carried as an
already-parsed `Date` (`none` models both `None` and an empty value, which are
falsy in the `elif upload_date:` test).  The Python `try`/`except` around the
body cannot fire on these well-formed inputs, so the embedding is total. -/
def format_date_warning (policy_start_date : Option String)
    (upload_date : Option Date) (today : Date) : String :=
  if strTruthy policy_start_date then
    warning_header ++ "- Status: **Aktif**\n- Tanggal Berlaku: **" ++
      policy_start_date.getD "" ++ "**\n"
  else
    match upload_date with
    | some d =>
        let days_ago : Int := (toordinal today : Int) - (toordinal d : Int)
        let upload_str := dateStr d
        let days_str :=
          if days_ago = 0 then "(hari ini)"
          else if days_ago = 1 then "(1 hari yang lalu)"
          else "(" ++ toString days_ago ++ " hari yang lalu)"
        warning_header ++
          "- **PERINGATAN**: Tanggal efektif polis tidak ditemukan.\n" ++
          "- Dokumen diunggah: **" ++ upload_str ++ " " ++ days_str ++ "**\n"
    | none => ""

/-! ### Search filter (`query_cortex_search_service`, filter-building part) -/

/-- One predicate of the Cortex search filter grammar. -/
inductive Pred where
  | eq (field value : String)
  | ilike (field pattern : String)
  deriving DecidableEq, Repr

/-- A built filter: the code always wraps the predicate list in `{"@and": ...}`. -/
inductive SearchFilter where
  | and (preds : List Pred)
  deriving DecidableEq, Repr

/-- The dynamic predicate list of `query_cortex_search_service`: the mandatory
language predicate, then the insurer / plan predicates added only when the
corresponding session value is truthy (non-empty). -/
def search_filters (insurer plan : String) : List Pred :=
  let fs := [Pred.eq "language" "Indonesian"]
  let fs := if !insurer.isEmpty then fs ++ [Pred.eq "INSURER" insurer] else fs
  if !plan.isEmpty then fs ++ [Pred.ilike "POLICY_PLAN" ("%" ++ plan ++ "%")] else fs

/-- `search_filter = {"@and": search_filters}`. -/
def search_filter_of (insurer plan : String) : SearchFilter :=
  .and (search_filters insurer plan)

/-- `json.dumps(pred, indent=2)` at nesting level `ind` (the indentation already
in force where the value starts). -/
def json_dumps_pred (ind : String) : Pred → String
  | .eq f v =>
      "\x7b\n" ++ ind ++ "  \"@eq\": \x7b\n" ++ ind ++ "    \"" ++ f ++ "\": \"" ++
        v ++ "\"\n" ++ ind ++ "  \x7d\n" ++ ind ++ "\x7d"
  | .ilike f v =>
      "\x7b\n" ++ ind ++ "  \"@ilike\": \x7b\n" ++ ind ++ "    \"" ++ f ++ "\": \"" ++
        v ++ "\"\n" ++ ind ++ "  \x7d\n" ++ ind ++ "\x7d"

/-- `json.dumps(search_filter, indent=2)`. -/
def json_dumps : SearchFilter → String
  | .and [] => "\x7b\n  \"@and\": []\n\x7d"
  | .and ps =>
      "\x7b\n  \"@and\": [\n" ++
        String.intercalate ",\n" (ps.map (fun p => "    " ++ json_dumps_pred "    " p)) ++
        "\n  ]\n\x7d"

/-! ### Data model: search results, chat messages, environment -/

/-- One record returned by the Cortex search call, with the columns the app
reads.  `r.get(key, default)` on missing metadata is modelled by `Option`;
`scores` is the `@scores` sub-object (possibly absent), holding the
`cosine_similarity` key (possibly absent). -/
structure SearchResult where
  chunk : String
  file_url : Option String
  relative_path : Option String
  UPLOAD_DATE : Option Date
  POLICY_START_DATE : Option String
  scores : Option (Option ℚ)

/-- A chat message, `{"role": ..., "content": ...}`. -/
structure Message where
  role : String
  content : String
  deriving DecidableEq, Repr

/-- An uploaded PDF file, modelled by its parse outcome: either the list of
page texts `PdfReader` extracts, or the message of the exception it raises. -/
abbrev PdfFile := Except String (List String)

/-- The session state and external oracles a turn runs against.
`serviceAvailable` is whether the Cortex service handle resolves; `search`
is the outcome of `cortex_search_service.search(query, columns, filter, limit)`;
`Complete` is the outcome of `snowflake.cortex.Complete(model, prompt)`;
`today` is `datetime.now().date()`. -/
structure Env where
  selected_insurer : String
  selected_plan : String
  num_retrieved_chunks : Nat
  patient_file_uploader : Option PdfFile
  current_task : String
  model_name : String
  serviceAvailable : Bool
  search : String → SearchFilter → Nat → Except String (List SearchResult)
  Complete : String → String → Except String String
  today : Date

/-! ### `get_text_from_uploaded_pdf` -/

/-- Embedding of `get_text_from_uploaded_pdf(uploaded_file)`.  The second
component records the `st.error` diagnostics it displays.  The Python body is
wrapped in `try`/`except` that returns `""`, so the function is total and never
propagates an exception to its caller. -/
def get_text_from_uploaded_pdf : Option PdfFile → String × List String
  | none => ("", [])
  | some (.error e) => ("", ["Error reading uploaded PDF: " ++ e])
  | some (.ok pages) => (String.join (pages.map (fun p => p ++ "\n")), [])

/-! ### `query_cortex_search_service` -/

/-- The `st.error` message displayed when the Cortex service handle cannot be
resolved (`root.databases[...]...` raises). -/
def service_missing_msg : String :=
  "Could not find Cortex Search Service 'INSURANCE_RAG_SERVICE_2'. Please ensure it exists in your schema."

/-- The loop `context_str += f"Context document {i+1}: {r[search_col]} \n" + "\n"`. -/
def context_str_of (results : List SearchResult) : String :=
  (results.enum).foldl
    (fun acc ir =>
      acc ++ ("Context document " ++ toString (ir.fst + 1) ++ ": " ++ ir.snd.chunk ++ " \n" ++ "\n"))
    ""

/-- Embedding of `query_cortex_search_service(query, columns)`.  `st.error`
followed by `st.stop()` aborts the in-flight turn; this is the `.error` case,
carrying the list of messages displayed before stopping. -/
def query_cortex_search_service (env : Env) (query : String) :
    Except (List String) (String × List SearchResult) :=
  if env.serviceAvailable then
    let search_filter := search_filter_of env.selected_insurer env.selected_plan
    match env.search query search_filter env.num_retrieved_chunks with
    | .error e =>
        .error ["Error during search: " ++ e,
                "Attempted search filter: " ++ json_dumps search_filter]
    | .ok results => .ok (context_str_of results, results)
  else
    .error [service_missing_msg]

/-! ### `create_prompt` and the prompt templates -/

/-- The `f\"\"\"...\"\"\"` block wrapping a non-`None` uploaded file's text. -/
def wrap_patient (patient_context : String) : String :=
  "\n            <PATIENT_CONTEXT>\n            Ini adalah laporan medis pasien yang diunggah:\n            " ++
    patient_context ++ "\n            </PATIENT_CONTEXT>\n        "

def general_template (policy_context patient_context user_question : String) : String :=
  "\n        [INST]\n        Anda adalah asisten cerdas yang bertugas menjawab pertanyaan tentang polis asuransi.\n        Tugas Anda adalah:\n        1. Jawablah PERTANYAAN user menggunakan <POLICY_CONTEXT>.\n        2. Jika <PATIENT_CONTEXT> disediakan, gunakan itu untuk informasi tambahan tentang pasien.\n        3. Jawablah HANYA berdasarkan informasi yang disediakan.\n        4. Jika <POLICY_CONTEXT> tidak berisi jawaban, jawablah \"Informasi tidak ditemukan dalam dokumen polis.\"\n        \n        <POLICY_CONTEXT>\n        " ++
    policy_context ++ "\n        </POLICY_CONTEXT>\n        " ++ patient_context ++
    "\n        \n        <PERTANYAAN>\n        " ++ user_question ++
    "\n        </PERTANYAAN>\n        [/INST]\n        Jawaban:\n        "

def coverage_template (policy_context patient_context user_question : String) : String :=
  "\n        [INST]\n        Anda adalah asisten analis perlindungan (coverage) asuransi.\n        Tugas Anda adalah menentukan apakah prosedur pasien DITANGGUNG atau TIDAK DITANGGUNG.\n        1. Periksa <PATIENT_CONTEXT> untuk menemukan prosedur medis yang dijalani pasien (jika ada).\n        2. Periksa <POLICY_CONTEXT> untuk menentukan apakah prosedur tersebut ditanggung.\n        3. Jawab HANYA dengan \"DITANGGUNG\" atau \"TIDAK DITANGGUNG\" atau \"TIDAK DISEBUTKAN\".\n        4. Jika <CONTEXT> menyebutkan syarat, Anda tetap harus menjawab \"DITANGGUNG\", lalu berikan penjelasan singkat.\n        \n        <POLICY_CONTEXT>\n        " ++
    policy_context ++ "\n        </POLICY_CONTEXT>\n        " ++ patient_context ++
    "\n        \n        <PERTANYAAN>\n        " ++ user_question ++
    "\n        </PERTANYAAN>\n        [/INST]\n        Jawaban:\n        "

def copay_template (policy_context patient_context user_question : String) : String :=
  "\n        [INST]\n        Anda adalah asisten ekstraksi data keuangan.\n        Tugas Anda adalah menemukan jumlah biaya (co-payment, iuran, deductible).\n        1. Gunakan <POLICY_CONTEXT> untuk menemukan jumlah biaya.\n        2. Gunakan <PATIENT_CONTEXT> untuk mengidentifikasi prosedur yang ditanyakan.\n        3. Jika <POLICY_CONTEXT> tidak menyebutkan biaya spesifik, jawablah \"Informasi biaya tidak ditemukan.\"\n        4. JANGAN membuat kalimat panjang. Berikan jawaban yang spesifik.\n        \n        <POLICY_CONTEXT>\n        " ++
    policy_context ++ "\n        </POLICY_CONTEXT>\n        " ++ patient_context ++
    "\n        \n        <PERTANYAAN>\n        " ++ user_question ++
    "\n        </PERTANYAAN>\n        [/INST]\n        Jawaban:\n        "

/-- The `prompt_templates` dict, as an ordered association list. -/
def prompt_templates (policy_context patient_context user_question : String) :
    List (String × String) :=
  [("general", general_template policy_context patient_context user_question),
   ("coverage", coverage_template policy_context patient_context user_question),
   ("copay", copay_template policy_context patient_context user_question)]

/-- Python `dict.get(key, default)` on an association list. -/
def dict_getD (d : List (String × String)) (k dflt : String) : String :=
  match d.find? (fun kv => kv.fst == k) with
  | some kv => kv.snd
  | none => dflt

/-- Embedding of `create_prompt(user_question)`: retrieve policy context,
wrap the uploaded patient file's text when a file is present, then select the
template for `current_task`, defaulting to the `general` one. -/
def create_prompt (env : Env) (user_question : String) :
    Except (List String) (String × List SearchResult) :=
  match query_cortex_search_service env user_question with
  | .error errs => .error errs
  | .ok (policy_context, results) =>
      let patient_context :=
        match env.patient_file_uploader with
        | none => ""
        | some f => wrap_patient (get_text_from_uploaded_pdf (some f)).1
      let tms := prompt_templates policy_context patient_context user_question
      let final_prompt :=
        dict_getD tms env.current_task
          (general_template policy_context patient_context user_question)
      .ok (final_prompt, results)

/-- Embedding of `complete(model, prompt)`, the wrapper around
`snowflake.cortex.Complete`. -/
def complete (env : Env) (model prompt : String) : Except String String :=
  env.Complete model prompt

/-! ### Response assembly (`main`, per-turn part) -/

/-- Models Python's `f"{x:.4f}"` fixed-point formatting on the rational value
of the score (ties round upward where binary floats round to even). -/
def format4 (q : ℚ) : String :=
  let scaled : Int := round (q * 10000)
  let a := scaled.natAbs
  (if scaled < 0 then "-" else "") ++ toString (a / 10000) ++ "." ++ pad4 (a % 10000)

def citation_header : String :=
  "###### Sumber Referensi (References) \n\n| Dokumen | Link | Similarity |\n|-------|-----|------------|\n"

/-- The citation-table accumulation loop of `main`. -/
def markdown_table (results : List SearchResult) : String :=
  let t := citation_header
  if results.isEmpty then t
  else
    results.foldl
      (fun t ref =>
        let title := ref.relative_path.getD "N/A"
        let url := ref.file_url.getD "#"
        let similarity := (ref.scores.getD none).getD 0
        t ++ ("| " ++ title ++ " | [Lihat Dokumen](" ++ url ++ ") | " ++
          format4 similarity ++ " |\n"))
      t

/-- The date-warning block of `main`: skipped (empty string) when no chunk was
retrieved, otherwise computed from the first retrieved chunk's metadata. -/
def date_warning_of (env : Env) (results : List SearchResult) : String :=
  match results with
  | [] => ""
  | first_result :: _ =>
      format_date_warning first_result.POLICY_START_DATE
        first_result.UPLOAD_DATE env.today

/-- One chat turn of `main` for an entered `question`: append the user message,
run the pipeline, and append the assistant message.  The second component is
the abort channel: the `st.error` diagnostics displayed when `st.stop()` cuts
the turn short (empty when the turn completes). -/
def run_turn (env : Env) (messages : List Message) (question : String) :
    List Message × List String :=
  let messages := messages ++ [⟨"user", question⟩]
  match create_prompt env question with
  | .error errs => (messages, errs)
  | .ok (prompt, results) =>
      let generated_response :=
        match complete env env.model_name prompt with
        | .ok r => r
        | .error e => "Error during LLM completion: " ++ e
      let final_output :=
        generated_response ++ "\n\n" ++ "---\n" ++ date_warning_of env results ++
          "\n" ++ markdown_table results
      (messages ++ [⟨"assistant", final_output⟩], [])

/-- The body of the upload-date branch of `format_date_warning`, as a function
of the rendered date and the day-count phrase. -/
def upload_note (d : Date) (days_str : String) : String :=
  warning_header ++
    "- **PERINGATAN**: Tanggal efektif polis tidak ditemukan.\n" ++
    "- Dokumen diunggah: **" ++ dateStr d ++ " " ++ days_str ++ "**\n"

/-- A concrete baseline environment for instantiating theorems: no facet
selected, no patient file, both external services succeeding trivially. -/
def env₀ : Env :=
  { selected_insurer := ""
    selected_plan := ""
    num_retrieved_chunks := 1
    patient_file_uploader := none
    current_task := "general"
    model_name := "mistral-7b"
    serviceAvailable := true
    search := fun _ _ _ => Except.ok []
    Complete := fun _ _ => Except.ok "OK"
    today := ⟨2025, 10, 12⟩ }

/-!
## Theorems

Helper lemmas about `subStr` / `Contains`, then one theorem per specification
claim (with concrete-input witnesses and counterexamples).
-/

theorem isPrefB_append (pat r : List Char) : isPrefB pat (pat ++ r) = true := by
  induction pat with
  | nil => rfl
  | cons a as ih => simp [isPrefB, ih]

theorem subStr_nil_left (s : List Char) : subStr [] s = true := by
  cases s <;> simp [subStr, isPrefB, List.isEmpty]

theorem subStr_here (pat b : List Char) : subStr pat (pat ++ b) = true := by
  cases pat with
  | nil => simpa using subStr_nil_left b
  | cons p ps =>
      have h := isPrefB_append (p :: ps) b
      simp only [List.cons_append] at h
      simp [subStr, h]

theorem subStr_append_left (a pat s : List Char) (h : subStr pat s = true) :
    subStr pat (a ++ s) = true := by
  induction a with
  | nil => simpa using h
  | cons c cs ih => simp [subStr, ih]

theorem isPrefB_ext (pat : List Char) :
    ∀ s y, isPrefB pat s = true → isPrefB pat (s ++ y) = true := by
  induction pat with
  | nil => intro s y _; rfl
  | cons a as ih =>
      intro s y h
      cases s with
      | nil => simp [isPrefB] at h
      | cons b bs =>
          simp [isPrefB] at h ⊢
          exact ⟨h.1, ih bs y h.2⟩

theorem subStr_append_right (pat s y : List Char) (h : subStr pat s = true) :
    subStr pat (s ++ y) = true := by
  induction s with
  | nil =>
      cases pat with
      | nil => simpa using subStr_nil_left y
      | cons a as => simp [subStr] at h
  | cons c rest ih =>
      simp only [subStr, Bool.or_eq_true] at h
      rcases h with hp | hs
      · have := isPrefB_ext pat (c :: rest) y hp
        simp only [List.cons_append] at this ⊢
        simp [subStr, this]
      · have := ih hs
        simp only [List.cons_append, subStr, Bool.or_eq_true]
        exact Or.inr this

theorem contains_mono_left (x s pat : String) (h : Contains s pat) :
    Contains (x ++ s) pat := by
  unfold Contains at h ⊢
  rw [String.data_append]
  exact subStr_append_left _ _ _ h

theorem contains_mono_right (s y pat : String) (h : Contains s pat) :
    Contains (s ++ y) pat := by
  unfold Contains at h ⊢
  rw [String.data_append]
  exact subStr_append_right _ _ _ h

theorem contains_self (s : String) : Contains s s := by
  unfold Contains
  simpa using subStr_here s.data []

theorem contains_of_append (x pat y : String) : Contains (x ++ pat ++ y) pat :=
  contains_mono_right _ _ _ (contains_mono_left _ _ _ (contains_self pat))

/-- C1: the retriever's filter is an `@and` conjunction whose predicate list
contains the fixed language predicate unconditionally, the insurer equality
predicate iff the selected insurer is non-empty, the wildcard-wrapped plan
pattern predicate iff the selected plan is non-empty, and nothing else. -/
theorem c1_filter_conjunction (insurer plan : String) :
    search_filter_of insurer plan = SearchFilter.and (search_filters insurer plan) ∧
    Pred.eq "language" "Indonesian" ∈ search_filters insurer plan ∧
    ((Pred.eq "INSURER" insurer ∈ search_filters insurer plan) ↔ insurer ≠ "") ∧
    (∀ v, Pred.eq "INSURER" v ∈ search_filters insurer plan → v = insurer ∧ insurer ≠ "") ∧
    ((Pred.ilike "POLICY_PLAN" ("%" ++ plan ++ "%") ∈ search_filters insurer plan) ↔ plan ≠ "") ∧
    (∀ f p, Pred.ilike f p ∈ search_filters insurer plan →
       f = "POLICY_PLAN" ∧ p = "%" ++ plan ++ "%" ∧ plan ≠ "") ∧
    ∀ q ∈ search_filters insurer plan,
      q = Pred.eq "language" "Indonesian" ∨ q = Pred.eq "INSURER" insurer ∨
        q = Pred.ilike "POLICY_PLAN" ("%" ++ plan ++ "%") := by
  have hiE : ∀ s : String, s ≠ "" → s.isEmpty = false := by
    intro s hs
    cases h : s.isEmpty
    · rfl
    · exact absurd ((String.isEmpty_iff s).mp h) hs
  have e0 : ("" : String).isEmpty = true := rfl
  by_cases hi : insurer = "" <;> by_cases hp : plan = ""
  · subst hi; subst hp
    simp [search_filter_of, search_filters, e0]
  · subst hi
    simp [search_filter_of, search_filters, e0, hiE plan hp, hp]
  · subst hp
    simp [search_filter_of, search_filters, e0, hiE insurer hi, hi]
  · simp [search_filter_of, search_filters, hiE insurer hi, hiE plan hp, hi, hp]

theorem c1_filter_conjunction_witness :
    Pred.eq "language" "Indonesian" ∈ search_filters "BCA" "XYZ" ∧
    Pred.eq "INSURER" "BCA" ∈ search_filters "BCA" "XYZ" ∧
    Pred.ilike "POLICY_PLAN" "%XYZ%" ∈ search_filters "BCA" "XYZ" :=
  ⟨(c1_filter_conjunction "BCA" "XYZ").2.1,
   ((c1_filter_conjunction "BCA" "XYZ").2.2.1).mpr (by decide),
   ((c1_filter_conjunction "BCA" "XYZ").2.2.2.2.1).mpr (by decide)⟩

/-- C3: the date-freshness note.  A truthy (non-empty) policy start date yields
the `Aktif` note showing that date, whatever the upload date is; otherwise a
present upload date yields the localized warning whose day-count phrase is
`(hari ini)` for today, `(1 hari yang lalu)` for exactly one day ago and
`(N hari yang lalu)` for `N ≥ 2` days ago; with neither date the note is
the empty string. -/
theorem c3_date_note (ps : Option String) (up : Option Date) (today : Date) :
    (strTruthy ps = true →
       format_date_warning ps up today =
         warning_header ++ "- Status: **Aktif**\n- Tanggal Berlaku: **" ++
           ps.getD "" ++ "**\n") ∧
    (strTruthy ps = false →
       (∀ d, up = some d →
          (toordinal today = toordinal d →
             format_date_warning ps up today = upload_note d "(hari ini)") ∧
          (toordinal today = toordinal d + 1 →
             format_date_warning ps up today = upload_note d "(1 hari yang lalu)") ∧
          (∀ N, 2 ≤ N → toordinal today = toordinal d + N →
             format_date_warning ps up today =
               upload_note d ("(" ++ toString N ++ " hari yang lalu)"))) ∧
       (up = none → format_date_warning ps up today = "")) := by
  constructor
  · intro h
    simp [format_date_warning, h]
  · intro h
    constructor
    · rintro d rfl
      refine ⟨?_, ?_, ?_⟩
      · intro h0
        simp [format_date_warning, h, h0, upload_note]
      · intro h1
        have hv : ((toordinal d + 1 : ℕ) : ℤ) - (toordinal d : ℤ) = 1 := by
          push_cast; ring
        simp [format_date_warning, h, h1, hv, upload_note]
      · intro N hN hNord
        have hv : ((toordinal d + N : ℕ) : ℤ) - (toordinal d : ℤ) = (N : ℤ) := by
          push_cast; ring
        have h0 : ¬((N : ℤ) = 0) := by omega
        have h1 : ¬((N : ℤ) = 1) := by omega
        have htos : toString ((N : ℤ)) = toString N := rfl
        simp [format_date_warning, h, hNord, hv, h0, h1, htos, upload_note]
    · rintro rfl
      simp [format_date_warning, h]

theorem c3_date_note_witness :
    strTruthy (some "2024-01-01") = true ∧
    format_date_warning (some "2024-01-01") (some ⟨2025, 10, 7⟩) ⟨2025, 10, 12⟩ =
      warning_header ++ "- Status: **Aktif**\n- Tanggal Berlaku: **" ++
        "2024-01-01" ++ "**\n" ∧
    format_date_warning none (some ⟨2025, 10, 7⟩) ⟨2025, 10, 12⟩ =
      upload_note ⟨2025, 10, 7⟩ "(5 hari yang lalu)" := by
  refine ⟨by decide, ?_, ?_⟩
  · exact (c3_date_note (some "2024-01-01") (some ⟨2025, 10, 7⟩) ⟨2025, 10, 12⟩).1 (by decide)
  · have h := ((c3_date_note none (some ⟨2025, 10, 7⟩) ⟨2025, 10, 12⟩).2 rfl).1
      ⟨2025, 10, 7⟩ rfl
    have h5 := h.2.2 5 (by decide) (by decide)
    simpa using h5

/-- C10: with an empty policy start date and an upload date `N ≥ 2` days in the
future, `format_date_warning` does not fail: `days_ago` goes negative and the
note renders the phrase `(-N hari yang lalu)`. -/
theorem c10_future_upload_date (ps : Option String) (d today : Date) (N : Nat)
    (hps : strTruthy ps = false) (hN : 2 ≤ N)
    (hord : toordinal d = toordinal today + N) :
    format_date_warning ps (some d) today =
      upload_note d ("(-" ++ toString N ++ " hari yang lalu)") := by
  obtain ⟨k, rfl⟩ : ∃ k, N = k + 1 := ⟨N - 1, by omega⟩
  have hv : (toordinal today : ℤ) - ((toordinal today + (k + 1) : ℕ) : ℤ) =
      -((k + 1 : ℕ) : ℤ) := by push_cast; ring
  have h0 : ¬(-((k + 1 : ℕ) : ℤ) = 0) := by omega
  have h1 : ¬(-((k + 1 : ℕ) : ℤ) = 1) := by omega
  have htos : toString (-((k + 1 : ℕ) : ℤ)) = "-" ++ toString (k + 1) := rfl
  have hparen : "(" ++ ("-" ++ toString (k + 1)) = "(-" ++ toString (k + 1) := rfl
  dsimp only [format_date_warning]
  rw [hps]
  simp only [Bool.false_eq_true, if_false]
  rw [hord, hv, if_neg h0, if_neg h1, htos, hparen, upload_note]

theorem c10_future_upload_date_witness :
    strTruthy none = false ∧ (2 : ℕ) ≤ 3 ∧
    toordinal ⟨2025, 10, 15⟩ = toordinal ⟨2025, 10, 12⟩ + 3 ∧
    format_date_warning none (some ⟨2025, 10, 15⟩) ⟨2025, 10, 12⟩ =
      upload_note ⟨2025, 10, 15⟩ ("(-" ++ toString 3 ++ " hari yang lalu)") :=
  ⟨by decide, by decide, by decide,
   c10_future_upload_date none ⟨2025, 10, 15⟩ ⟨2025, 10, 12⟩ 3 (by decide)
     (by decide) (by decide)⟩

theorem general_template_contains (pc pt q pat : String) (h : Contains pt pat) :
    Contains (general_template pc pt q) pat := by
  unfold general_template
  apply contains_mono_right
  apply contains_mono_right
  apply contains_mono_right
  exact contains_mono_left _ _ _ h

theorem coverage_template_contains (pc pt q pat : String) (h : Contains pt pat) :
    Contains (coverage_template pc pt q) pat := by
  unfold coverage_template
  apply contains_mono_right
  apply contains_mono_right
  apply contains_mono_right
  exact contains_mono_left _ _ _ h

theorem copay_template_contains (pc pt q pat : String) (h : Contains pt pat) :
    Contains (copay_template pc pt q) pat := by
  unfold copay_template
  apply contains_mono_right
  apply contains_mono_right
  apply contains_mono_right
  exact contains_mono_left _ _ _ h

/-- `prompt_templates.get(current_task, general)` always returns one of the
three templates or the supplied default. -/
theorem dict_getD_templates (pc pt q t dflt : String) :
    dict_getD (prompt_templates pc pt q) t dflt = general_template pc pt q ∨
    dict_getD (prompt_templates pc pt q) t dflt = coverage_template pc pt q ∨
    dict_getD (prompt_templates pc pt q) t dflt = copay_template pc pt q ∨
    dict_getD (prompt_templates pc pt q) t dflt = dflt := by
  by_cases h1 : t = "general"
  · subst h1; left; simp [dict_getD, prompt_templates, List.find?]
  by_cases h2 : t = "coverage"
  · subst h2; right; left
    simp [dict_getD, prompt_templates, List.find?]
  by_cases h3 : t = "copay"
  · subst h3; right; right; left
    simp [dict_getD, prompt_templates, List.find?]
  · have b1 : (("general" : String) == t) = false := beq_eq_false_iff_ne.mpr (Ne.symm h1)
    have b2 : (("coverage" : String) == t) = false := beq_eq_false_iff_ne.mpr (Ne.symm h2)
    have b3 : (("copay" : String) == t) = false := beq_eq_false_iff_ne.mpr (Ne.symm h3)
    right; right; right
    simp [dict_getD, prompt_templates, List.find?, b1, b2, b3]

set_option maxRecDepth 16384 in
/-- C2 counterexample to the claim as stated: with an uploaded file that fails
to parse, the extractor returns empty text and yet the composed prompt carries
the labelled patient-context block wrapping that empty text — the prompt equals
the template applied to `wrap_patient ""`, contains the full wrapper as a
substring, and differs from the prompt composed with an empty patient slot.
The wrapping is keyed on the presence of the file, not on the extractor's
output. -/
theorem c2_counterexample :
    (get_text_from_uploaded_pdf (some (Except.error "EOF marker not found"))).1 = "" ∧
    create_prompt
        { env₀ with patient_file_uploader := some (Except.error "EOF marker not found") }
        "Q" =
      Except.ok (general_template (context_str_of []) (wrap_patient "") "Q", []) ∧
    Contains (general_template (context_str_of []) (wrap_patient "") "Q")
      (wrap_patient "") ∧
    general_template (context_str_of []) (wrap_patient "") "Q" ≠
      general_template (context_str_of []) "" "Q" := by
  refine ⟨rfl, rfl, ?_, by decide⟩
  exact general_template_contains _ _ _ _ (contains_self _)

/-- C2 (amended): the patient slot of the composed prompt is the labelled
wrapper around the extractor's text exactly when a patient file was provided —
even when the extractor returned empty text, which yields the labelled block
wrapping empty text — and is the empty string, not a placeholder, when no file
was provided.  With a file present the prompt contains the full wrapper as a
substring. -/
theorem c2_patient_block (env : Env) (q pc : String) (results : List SearchResult)
    (h : query_cortex_search_service env q = Except.ok (pc, results)) :
    ∃ p, create_prompt env q = Except.ok (p, results) ∧
      (∀ f, env.patient_file_uploader = some f →
         p = dict_getD
               (prompt_templates pc (wrap_patient (get_text_from_uploaded_pdf (some f)).1) q)
               env.current_task
               (general_template pc (wrap_patient (get_text_from_uploaded_pdf (some f)).1) q) ∧
           Contains p (wrap_patient (get_text_from_uploaded_pdf (some f)).1)) ∧
      (env.patient_file_uploader = none →
         p = dict_getD (prompt_templates pc "" q) env.current_task
               (general_template pc "" q)) := by
  cases hf : env.patient_file_uploader with
  | none =>
      refine ⟨dict_getD (prompt_templates pc "" q) env.current_task
        (general_template pc "" q), ?_, ?_, fun _ => rfl⟩
      · simp only [create_prompt, h, hf]
      · intro f hff; cases hff
  | some f0 =>
      refine ⟨dict_getD
          (prompt_templates pc (wrap_patient (get_text_from_uploaded_pdf (some f0)).1) q)
          env.current_task
          (general_template pc (wrap_patient (get_text_from_uploaded_pdf (some f0)).1) q),
        ?_, ?_, ?_⟩
      · simp only [create_prompt, h, hf]
      · intro f hff
        injection hff with hff'
        subst hff'
        refine ⟨rfl, ?_⟩
        rcases dict_getD_templates pc
            (wrap_patient (get_text_from_uploaded_pdf (some f0)).1) q env.current_task
            (general_template pc (wrap_patient (get_text_from_uploaded_pdf (some f0)).1) q)
          with hh | hh | hh | hh <;> rw [hh]
        · exact general_template_contains _ _ _ _ (contains_self _)
        · exact coverage_template_contains _ _ _ _ (contains_self _)
        · exact copay_template_contains _ _ _ _ (contains_self _)
        · exact general_template_contains _ _ _ _ (contains_self _)
      · intro h0; exact absurd h0 (Option.some_ne_none f0)

theorem c2_patient_block_witness :
    query_cortex_search_service
        { env₀ with patient_file_uploader := some (Except.ok ["page one"]) } "Q" =
      Except.ok (context_str_of [], []) ∧
    ∃ p, create_prompt
        { env₀ with patient_file_uploader := some (Except.ok ["page one"]) } "Q" =
        Except.ok (p, []) ∧
      p = dict_getD
            (prompt_templates (context_str_of [])
              (wrap_patient (get_text_from_uploaded_pdf (some (Except.ok ["page one"]))).1) "Q")
            "general"
            (general_template (context_str_of [])
              (wrap_patient (get_text_from_uploaded_pdf (some (Except.ok ["page one"]))).1) "Q") ∧
      Contains p
        (wrap_patient (get_text_from_uploaded_pdf (some (Except.ok ["page one"]))).1) := by
  refine ⟨rfl, ?_⟩
  obtain ⟨p, hp, hsome, -⟩ := c2_patient_block
    { env₀ with patient_file_uploader := some (Except.ok ["page one"]) } "Q"
    (context_str_of []) [] rfl
  obtain ⟨heq, hcont⟩ := hsome (Except.ok ["page one"]) rfl
  exact ⟨p, hp, heq, hcont⟩

/-- C4: an unrecognized task value selects exactly the `general` template: the
composer returns the same text as for `task = "general"` with the other inputs
unchanged (and, being a total function, never raises). -/
theorem c4_unknown_task_general (env : Env) (t q : String)
    (h : t ∉ (["general", "coverage", "copay"] : List String)) :
    create_prompt { env with current_task := t } q =
      create_prompt { env with current_task := "general" } q := by
  have h1 : t ≠ "general" := by intro e; exact h (by simp [e])
  have h2 : t ≠ "coverage" := by intro e; exact h (by simp [e])
  have h3 : t ≠ "copay" := by intro e; exact h (by simp [e])
  have b1 : (("general" : String) == t) = false := beq_eq_false_iff_ne.mpr (Ne.symm h1)
  have b2 : (("coverage" : String) == t) = false := beq_eq_false_iff_ne.mpr (Ne.symm h2)
  have b3 : (("copay" : String) == t) = false := beq_eq_false_iff_ne.mpr (Ne.symm h3)
  have hq : query_cortex_search_service { env with current_task := t } q =
      query_cortex_search_service { env with current_task := "general" } q := rfl
  unfold create_prompt
  rw [hq]
  cases hres : query_cortex_search_service { env with current_task := "general" } q with
  | error errs => rfl
  | ok pr =>
      obtain ⟨pc, results⟩ := pr
      simp [dict_getD, prompt_templates, List.find?, b1, b2, b3]

theorem c4_unknown_task_general_witness :
    ("weird" : String) ∉ (["general", "coverage", "copay"] : List String) ∧
    create_prompt { env₀ with current_task := "weird" } "Q" =
      create_prompt { env₀ with current_task := "general" } "Q" :=
  ⟨by decide, c4_unknown_task_general env₀ "weird" "Q" (by decide)⟩

theorem string_foldl_eq (l : List String) :
    ∀ t : String, l.foldl (· ++ ·) t = t ++ l.foldl (· ++ ·) "" := by
  induction l with
  | nil => intro t; simp [String.append_empty]
  | cons a as ih =>
      intro t
      show as.foldl (· ++ ·) (t ++ a) = t ++ as.foldl (· ++ ·) ("" ++ a)
      rw [ih (t ++ a), ih ("" ++ a), String.empty_append, String.append_assoc]

theorem string_join_cons (a : String) (l : List String) :
    String.join (a :: l) = a ++ String.join l := by
  show l.foldl (· ++ ·) ("" ++ a) = a ++ String.join l
  rw [String.empty_append, string_foldl_eq l a]; rfl

theorem foldl_string_join (f : SearchResult → String) (l : List SearchResult) :
    ∀ t : String, l.foldl (fun acc r => acc ++ f r) t = t ++ String.join (l.map f) := by
  induction l with
  | nil => intro t; simp [String.join, String.append_empty]
  | cons a as ih =>
      intro t
      show as.foldl (fun acc r => acc ++ f r) (t ++ f a) = t ++ String.join (f a :: as.map f)
      rw [ih (t ++ f a), string_join_cons, String.append_assoc]

theorem markdown_table_eq_foldl (l : List SearchResult) :
    markdown_table l = l.foldl
      (fun t ref => t ++ ("| " ++ ref.relative_path.getD "N/A" ++ " | [Lihat Dokumen](" ++
        ref.file_url.getD "#" ++ ") | " ++ format4 ((ref.scores.getD none).getD 0) ++ " |\n"))
      citation_header := by
  cases l with
  | nil => rfl
  | cons a as => rfl

/-- C5: the citation table is the fixed header followed by exactly one data row
per retrieved chunk, in chunk order, each row showing the document title
(`"N/A"` when missing), the hyperlink (`"#"` when missing) and the similarity
score formatted to four decimal places (`0.0`, i.e. `0.0000`, when missing);
with no chunks the table is the header alone. -/
theorem c5_citation_table (results : List SearchResult) :
    markdown_table results =
      citation_header ++ String.join (results.map (fun ref =>
        "| " ++ ref.relative_path.getD "N/A" ++ " | [Lihat Dokumen](" ++
          ref.file_url.getD "#" ++ ") | " ++ format4 ((ref.scores.getD none).getD 0) ++
          " |\n")) ∧
    markdown_table [] = citation_header ∧ format4 0 = "0.0000" := by
  have hr : round ((0 : ℚ) * 10000) = 0 := by norm_num
  have h4 : format4 0 = "0.0000" := by simp [format4, hr]; rfl
  refine ⟨?_, rfl, h4⟩
  rw [markdown_table_eq_foldl]
  exact foldl_string_join _ results citation_header

theorem c5_citation_table_witness :
    markdown_table [] = citation_header ∧
    markdown_table [⟨"txt", none, none, none, none, none⟩] =
      citation_header ++ String.join ["| " ++ "N/A" ++ " | [Lihat Dokumen](" ++ "#" ++
        ") | " ++ format4 0 ++ " |\n"] :=
  ⟨(c5_citation_table []).2.1,
   by simpa using (c5_citation_table [⟨"txt", none, none, none, none, none⟩]).1⟩

/-- C8: the patient-context extractor returns empty text when no file is given;
on a parse failure it returns empty text together with the diagnostic it
displays; on success it returns the newline-joined page texts.  It is a total
function: no exception reaches the caller (the Python body catches everything
and returns `""`). -/
theorem c8_pdf_extractor (f : Option PdfFile) :
    (f = none → get_text_from_uploaded_pdf f = ("", [])) ∧
    (∀ e, f = some (Except.error e) →
       get_text_from_uploaded_pdf f = ("", ["Error reading uploaded PDF: " ++ e])) ∧
    (∀ pages, f = some (Except.ok pages) →
       get_text_from_uploaded_pdf f =
         (String.join (pages.map (fun p => p ++ "\n")), [])) := by
  refine ⟨?_, ?_, ?_⟩
  · rintro rfl; rfl
  · rintro e rfl; rfl
  · rintro pages rfl; rfl

theorem c8_pdf_extractor_witness :
    get_text_from_uploaded_pdf (some (Except.error "EOF marker not found")) =
      ("", ["Error reading uploaded PDF: " ++ "EOF marker not found"]) :=
  (c8_pdf_extractor (some (Except.error "EOF marker not found"))).2.1
    "EOF marker not found" rfl

/-- C6: when the completion call fails, the turn still completes: the assistant
message records the error indicator in place of the answer, no abort diagnostics
are raised, and the conversation log grows by exactly one user message followed
by one assistant message. -/
theorem c6_completion_failure (env : Env) (msgs : List Message) (q p e : String)
    (results : List SearchResult)
    (hq : create_prompt env q = Except.ok (p, results))
    (hc : env.Complete env.model_name p = Except.error e) :
    ∃ final, run_turn env msgs q =
        (msgs ++ [⟨"user", q⟩, ⟨"assistant", final⟩], []) ∧
      Contains final ("Error during LLM completion: " ++ e) ∧
      (run_turn env msgs q).1.length = msgs.length + 2 := by
  have hstep : run_turn env msgs q =
      ((msgs ++ [⟨"user", q⟩]) ++
        [⟨"assistant", ("Error during LLM completion: " ++ e) ++ "\n\n" ++ "---\n" ++
          date_warning_of env results ++ "\n" ++ markdown_table results⟩], []) := by
    simp only [run_turn, hq, complete, hc]
  refine ⟨("Error during LLM completion: " ++ e) ++ "\n\n" ++ "---\n" ++
      date_warning_of env results ++ "\n" ++ markdown_table results, ?_, ?_, ?_⟩
  · rw [hstep, List.append_assoc]; rfl
  · apply contains_mono_right
    apply contains_mono_right
    apply contains_mono_right
    apply contains_mono_right
    apply contains_mono_right
    exact contains_self _
  · rw [hstep]
    simp

theorem c6_completion_failure_witness :
    ∃ final, run_turn { env₀ with Complete := fun _ _ => Except.error "quota exceeded" }
        [] "Q" = ([⟨"user", "Q"⟩, ⟨"assistant", final⟩], []) ∧
      Contains final ("Error during LLM completion: " ++ "quota exceeded") ∧
      (run_turn { env₀ with Complete := fun _ _ => Except.error "quota exceeded" }
        [] "Q").1.length = 2 := by
  obtain ⟨final, h1, h2, h3⟩ := c6_completion_failure
    { env₀ with Complete := fun _ _ => Except.error "quota exceeded" } [] "Q"
    (general_template (context_str_of []) "" "Q") "quota exceeded" [] rfl rfl
  exact ⟨final, by simpa using h1, h2, by simpa using h3⟩

/-- C7 counterexample to the claim as stated: when the service handle cannot be
resolved, the turn does abort with a user-visible diagnostic, but that sole
diagnostic does not show the attempted search filter (the filter has not even
been built at that point), contradicting the claim's "with the attempted search
filter shown for diagnosis" for this failure mode. -/
theorem c7_counterexample :
    run_turn { env₀ with serviceAvailable := false } [] "Q" =
      ([⟨"user", "Q"⟩], [service_missing_msg]) ∧
    ¬ Contains service_missing_msg "Attempted search filter" ∧
    ¬ Contains service_missing_msg (json_dumps (search_filter_of "" "")) :=
  ⟨rfl, by decide, by decide⟩

/-- C7 (amended): an unresolvable service handle or a raising search call
aborts the in-flight turn with user-visible diagnostics and records no
assistant message (the log only grows by the user message); the attempted
search filter is shown for diagnosis when the search call itself raises, while
the handle-resolution failure shows only the service-not-found message. -/
theorem c7_turn_abort (env : Env) (msgs : List Message) (q : String) :
    (env.serviceAvailable = false →
       run_turn env msgs q = (msgs ++ [⟨"user", q⟩], [service_missing_msg])) ∧
    (∀ e, env.serviceAvailable = true →
       env.search q (search_filter_of env.selected_insurer env.selected_plan)
           env.num_retrieved_chunks = Except.error e →
       run_turn env msgs q =
         (msgs ++ [⟨"user", q⟩],
          ["Error during search: " ++ e,
           "Attempted search filter: " ++
             json_dumps (search_filter_of env.selected_insurer env.selected_plan)])) := by
  constructor
  · intro h
    simp only [run_turn, create_prompt, query_cortex_search_service, h]
    simp
  · intro e hs hsearch
    simp only [run_turn, create_prompt, query_cortex_search_service, hs, hsearch]
    simp

theorem c7_turn_abort_witness :
    run_turn { env₀ with serviceAvailable := false } [] "Q" =
      ([⟨"user", "Q"⟩], [service_missing_msg]) ∧
    run_turn { env₀ with search := fun _ _ _ => Except.error "invalid filter" } [] "Q" =
      ([⟨"user", "Q"⟩],
       ["Error during search: " ++ "invalid filter",
        "Attempted search filter: " ++ json_dumps (search_filter_of "" "")]) := by
  constructor
  · have h := (c7_turn_abort { env₀ with serviceAvailable := false } [] "Q").1 rfl
    simpa [env₀] using h
  · have h := (c7_turn_abort
      { env₀ with search := fun _ _ _ => Except.error "invalid filter" } [] "Q").2
      "invalid filter" rfl rfl
    simpa [env₀] using h

/-- C9: when the retriever returns no chunks, the date-note computation is
skipped — the date-warning string is empty — and the assistant message is the
answer, the separator, an empty date slot and the bare citation-table header. -/
theorem c9_empty_retrieval (env : Env) (msgs : List Message) (q p ans : String)
    (hq : create_prompt env q = Except.ok (p, []))
    (hc : env.Complete env.model_name p = Except.ok ans) :
    date_warning_of env [] = "" ∧
    run_turn env msgs q =
      (msgs ++ [⟨"user", q⟩,
        ⟨"assistant", ans ++ "\n\n" ++ "---\n" ++ "" ++ "\n" ++ citation_header⟩], []) := by
  refine ⟨rfl, ?_⟩
  have hstep : run_turn env msgs q =
      ((msgs ++ [⟨"user", q⟩]) ++
        [⟨"assistant", ans ++ "\n\n" ++ "---\n" ++ date_warning_of env [] ++ "\n" ++
          markdown_table []⟩], []) := by
    simp only [run_turn, hq, complete, hc]
  rw [hstep, List.append_assoc]
  rfl

theorem c9_empty_retrieval_witness :
    create_prompt env₀ "Q" =
      Except.ok (general_template (context_str_of []) "" "Q", []) ∧
    run_turn env₀ [] "Q" =
      ([⟨"user", "Q"⟩,
        ⟨"assistant", "OK" ++ "\n\n" ++ "---\n" ++ "" ++ "\n" ++ citation_header⟩], []) := by
  refine ⟨rfl, ?_⟩
  have h := (c9_empty_retrieval env₀ [] "Q"
    (general_template (context_str_of []) "" "Q") "OK" rfl rfl).2
  simpa using h

end KYHP
